import Mathlib

/-!
Verification development for the `react-movies` repository.

The definitions below are a shallow embedding of the core logic of the
application: the Appwrite-backed search-popularity ledger (`appwrite.js`,
both variants present in the sources), the browse / pagination / filter
state of `Home.jsx` and `App.jsx`, and the favorites store of `Home.jsx`
and `SavedMoviesContext.jsx`.  JavaScript numbers that hold integers
(movie ids, page numbers, search counts, genre ids) are modelled as `Int`;
ratings, which carry one decimal digit, are modelled as `ℚ`.  A JS value
that may be `undefined` is modelled as an `Option`.
-/

namespace ReactMovies

/-- A movie object as returned by the TMDB catalog API and consumed by the
code (`data.results[i]`).  The field `dollarId` embeds the JS property
access `movie.$id` performed at `appwrite.js` (first variant) line 80:
catalog results carry no such property, so at the only call site
(`Home.jsx` line 77 and `App.jsx` line 108, passing `data.results[0]`)
it is `undefined`, i.e. `none`. -/
structure Movie where
  id : Int
  title : String
  poster_path : Option String
  vote_average : Option ℚ
  genre_ids : Option (List Int)
  dollarId : Option String
deriving DecidableEq

/-- A document of the Appwrite search-counter collection, with the fields
written by `updateSearchCount` (first variant): `$id` (modelled as
`docId`, an `Option String` because the code can pass an undefined value
as the explicit id on creation), `query`, `count`, `title`, `poster_url`,
`movie_id`. -/
structure SearchDoc where
  docId : Option String
  query : String
  count : Int
  title : String
  poster_url : String
  movie_id : Int
deriving DecidableEq

/-- Modelled from the spec: the external Appwrite collection is used as a
document store supporting an exact-match filtered list
(`Query.equal(field, value)`).  The ledger is modelled as the list of its
documents in backend-default order. -/
def listDocumentsByQuery (ledger : List SearchDoc) (q : String) : List SearchDoc :=
  ledger.filter (fun d => d.query == q)

/-- Modelled from the spec: `databases.updateDocument` with payload
`\x7b count: n \x7d` sets the `count` field of the document(s) whose `$id`
equals the given id. -/
def updateDocumentCount (ledger : List SearchDoc) (target : Option String)
    (newCount : Int) : List SearchDoc :=
  ledger.map (fun d => if d.docId == target then { d with count := newCount } else d)

/-- Modelled from the spec: `databases.createDocument` appends a new
document with an explicitly supplied id. -/
def createDocument (ledger : List SearchDoc) (d : SearchDoc) : List SearchDoc :=
  ledger ++ [d]

/-- The poster URL computed on the creation path of `updateSearchCount`
(first variant, lines 85-87): `movie.poster_path` templated into the TMDB
image host when the path is truthy (a nonempty string), otherwise the
empty string. -/
def posterUrlOf (movie : Movie) : String :=
  match movie.poster_path with
  | some p => if p == "" then "" else "https://image.tmdb.org/t/p/w500" ++ p
  | none => ""

/-- `updateSearchCount(query, movie)` from `appwrite.js` (first variant,
lines 54-96), happy path: list the documents whose `query` field equals
the submitted text; if one exists, write back `count + 1` for the first
match; otherwise create a new document whose explicit id is `movie.$id`
(the `dollarId` field of the embedding) with `count = 1` and the
denormalized movie snapshot. -/
def updateSearchCount (q : String) (movie : Movie) (ledger : List SearchDoc) :
    List SearchDoc :=
  match listDocumentsByQuery ledger q with
  | doc :: _ => updateDocumentCount ledger doc.docId (doc.count + 1)
  | [] =>
    createDocument ledger
      { docId := movie.dollarId
        query := q
        count := 1
        title := movie.title
        poster_url := posterUrlOf movie
        movie_id := movie.id }

/-- The descending-count order requested from the backend by
`Query.orderDesc('count')`: `a` precedes `b` when `b.count ≤ a.count`. -/
def countDescRel (a b : SearchDoc) : Prop := b.count ≤ a.count

instance : DecidableRel countDescRel :=
  fun a b => (inferInstance : Decidable (b.count ≤ a.count))

instance : IsTotal SearchDoc countDescRel :=
  ⟨fun a b => le_total b.count a.count⟩

instance : IsTrans SearchDoc countDescRel :=
  ⟨fun _ _ _ hab hbc => le_trans hbc hab⟩

/-- Modelled from the spec: the backend query
`[Query.orderDesc('count'), Query.limit(5)]` returns the documents sorted
by `count` descending (ties in backend-default order, here realised by a
stable sort) and capped at five. -/
def listTopDocs (ledger : List SearchDoc) : List SearchDoc :=
  (List.insertionSort countDescRel ledger).take 5

/-- The simplified movie object built by `getTrendingMovies` (first
variant, lines 38-43) from each returned document. -/
structure TrendingMovie where
  docId : Option String
  movie_id : Int
  title : String
  poster_url : String
deriving DecidableEq

/-- `getTrendingMovies` from `appwrite.js` (first variant, lines 26-48),
happy path: fetch the top five documents by descending count and map each
to the simplified object. -/
def getTrendingMovies (ledger : List SearchDoc) : List TrendingMovie :=
  (listTopDocs ledger).map
    (fun d => { docId := d.docId, movie_id := d.movie_id,
                title := d.title, poster_url := d.poster_url })

/-- The try/catch wrapper of `updateSearchCount` (both variants): when any
backend call errors, the error is caught and logged and the ledger is left
untouched; the function still returns normally. -/
def updateSearchCountSafe (backendError : Bool) (q : String) (movie : Movie)
    (ledger : List SearchDoc) : List SearchDoc :=
  if backendError then ledger else updateSearchCount q movie ledger

/-- The try/catch wrapper of `getTrendingMovies` (first variant, lines
44-47): on a backend error the catch block returns the empty array. -/
def getTrendingMoviesSafe (backendError : Bool) (ledger : List SearchDoc) :
    List TrendingMovie :=
  if backendError then [] else getTrendingMovies ledger

/-- `getTrendingMovies` from the second variant of `appwrite.js` (lines
169-180): on success it returns the raw documents; its catch block (lines
177-179) only logs and contains no return statement, so on a backend
error the function returns `undefined`, modelled as `none`. -/
def getTrendingMoviesV2 (backendError : Bool) (ledger : List SearchDoc) :
    Option (List SearchDoc) :=
  if backendError then none else some (listTopDocs ledger)

/-- The browse state of the `Home` component (`Home.jsx` lines 22-33; the
same fields appear in `App.jsx` lines 45-66).  Presentational pieces
(trending list, genre vocabulary, DOM ref) and the filter inputs, which
never feed back into this state, are modelled separately. -/
structure HomeState where
  searchTerm : String
  debouncedSearchTerm : String
  errorMessage : String
  movieList : List Movie
  currentPage : Int
  totalPages : Int
  isLoading : Bool
deriving DecidableEq

/-- One firing of the debounce timer: `setDebouncedSearchTerm(searchTerm)`
(`Home.jsx` line 48).  When the submitted value equals the current one,
React bails out of the state update (`Object.is` comparison) and, equally,
the effect `useEffect(() => setCurrentPage(1), [debouncedSearchTerm])`
(`Home.jsx` lines 125-127, `App.jsx` lines 142-144) runs only when its
dependency changed between renders; so the page reset happens exactly when
the settled text differs from the previous settled text.  The catalog
fetch that the settle also triggers is modelled separately by
`fetchMovies`. -/
def settleSearchTerm (s : HomeState) : HomeState :=
  if s.searchTerm == s.debouncedSearchTerm then s
  else { s with debouncedSearchTerm := s.searchTerm, currentPage := 1 }

/-- The outcome of one catalog request as the code distinguishes it:
either a transport or parse failure (a network error, `!response.ok`, or
`response.json()` throwing, all reaching the catch block), or a decoded
body with `results` and `total_pages`. -/
inductive FetchOutcome where
  | transportError : FetchOutcome
  | success (results : List Movie) (total_pages : Int) : FetchOutcome
deriving DecidableEq

/-- `fetchMovies(query, page)` of `Home.jsx` lines 50-86 (`App.jsx` lines
74-116 is identical), as a state transformer given the request outcome:
it first sets `isLoading` and clears `errorMessage`; a caught error sets
the generic retry message; a success with zero results sets the message
`No movies found.` and empties the movie list and returns early; a
success with at least one result stores the results and `total_pages`.
The `finally` block always clears `isLoading`.  The best-effort
`updateSearchCount` / trending refresh side effects on the non-empty
search path touch only the ledger, modelled separately. -/
def fetchMovies (outcome : FetchOutcome) (s : HomeState) : HomeState :=
  match outcome with
  | .transportError =>
    { s with errorMessage := "Error Fetching Movies. Please Try Again Later."
             isLoading := false }
  | .success results total_pages =>
    if results.length == 0 then
      { s with errorMessage := "No movies found.", movieList := [], isLoading := false }
    else
      { s with errorMessage := "", movieList := results,
               totalPages := total_pages, isLoading := false }

/-- The disabled condition of the First button
(`Home.jsx` line 257): `currentPage === 1 || isLoading`. -/
def firstDisabled (s : HomeState) : Bool :=
  s.currentPage == 1 || s.isLoading

/-- The disabled condition of the Previous button
(`Home.jsx` line 270): `currentPage === 1 || isLoading`. -/
def prevDisabled (s : HomeState) : Bool :=
  s.currentPage == 1 || s.isLoading

/-- The disabled condition of the Next button
(`Home.jsx` line 285): `currentPage === totalPages || isLoading`. -/
def nextDisabled (s : HomeState) : Bool :=
  s.currentPage == s.totalPages || s.isLoading

/-- The click handler of the First button (`Home.jsx` lines 250-256):
go to page 1 unless already there or a fetch is in flight. -/
def clickFirst (s : HomeState) : HomeState :=
  if ¬s.currentPage = 1 ∧ s.isLoading = false then { s with currentPage := 1 } else s

/-- The click handler of the Previous button (`Home.jsx` lines 263-269):
`setCurrentPage(prev => Math.max(prev - 1, 1))` guarded by
`currentPage > 1 && !isLoading`. -/
def clickPrev (s : HomeState) : HomeState :=
  if 1 < s.currentPage ∧ s.isLoading = false then
    { s with currentPage := max (s.currentPage - 1) 1 }
  else s

/-- The click handler of the Next button (`Home.jsx` lines 278-284):
`setCurrentPage(prev => prev + 1)` guarded by
`currentPage < totalPages && !isLoading`. -/
def clickNext (s : HomeState) : HomeState :=
  if s.currentPage < s.totalPages ∧ s.isLoading = false then
    { s with currentPage := s.currentPage + 1 }
  else s

/-- `handleSaveMovie` of `Home.jsx` lines 135-139 and `saveMovie` of
`SavedMoviesContext.jsx` lines 22-26: append the movie unless an entry
with the same id is already present. -/
def saveMovie (savedMovies : List Movie) (movie : Movie) : List Movie :=
  if savedMovies.any (fun m => m.id == movie.id) then savedMovies
  else savedMovies ++ [movie]

/-- `handleRemoveMovie` of `Home.jsx` lines 142-144 and `removeMovie` of
`SavedMoviesContext.jsx` lines 28-30: keep exactly the entries whose id
differs. -/
def removeMovie (savedMovies : List Movie) (id : Int) : List Movie :=
  savedMovies.filter (fun m => m.id != id)

/-- The membership check `savedMovies.some((m) => m.id === movie.id)`
used for the `isSaved` prop (`Home.jsx` line 237) and inside
`handleSaveMovie`. -/
def containsMovie (savedMovies : List Movie) (id : Int) : Bool :=
  savedMovies.any (fun m => m.id == id)

/-- The JS comparison `movie.vote_average >= minRating` (`Home.jsx` line
148): when `vote_average` is `undefined` the comparison coerces it to
`NaN` and evaluates to `false`, whatever `minRating` is. -/
def jsGE (x : Option ℚ) (y : ℚ) : Bool :=
  match x with
  | some v => decide (y ≤ v)
  | none => false

/-- The rating conjunct of the `Home.jsx` filter (line 148). -/
def meetsRating (movie : Movie) (minRating : ℚ) : Bool :=
  jsGE movie.vote_average minRating

/-- The genre conjunct of the `Home.jsx` filter (lines 149-150):
`!selectedGenre || movie.genre_ids?.includes(Number(selectedGenre))`.
`selectedGenre` is the empty string (falsy, modelled `none`) or a genre
id; an `undefined` `genre_ids` makes the optional chain yield a falsy
value. -/
def meetsGenre (movie : Movie) (selectedGenre : Option Int) : Bool :=
  match selectedGenre with
  | none => true
  | some g =>
    match movie.genre_ids with
    | some ids => ids.contains g
    | none => false

/-- `filteredMovies` of `Home.jsx` lines 147-152: the fetched page
filtered by the conjunction of the rating and genre conditions. -/
def filteredMovies (movieList : List Movie) (selectedGenre : Option Int)
    (minRating : ℚ) : List Movie :=
  movieList.filter (fun m => meetsRating m minRating && meetsGenre m selectedGenre)

/-- The claim reading of the rating filter, stated for comparison with
the code: a movie with no rating value is treated as having rating 0. -/
def specMeetsRating (movie : Movie) (minRating : ℚ) : Bool :=
  decide (minRating ≤ movie.vote_average.getD 0)

/-- A JSON value, for modelling what `JSON.parse` hands back to the two
favorites loaders.  The fragment covers `null`, booleans, integers,
escape-free strings and arrays; this is enough to exercise every branch
the loaders have (missing, malformed, well-formed non-list, list). -/
inductive Json where
  | null : Json
  | bool (b : Bool) : Json
  | num (n : Int) : Json
  | str (s : String) : Json
  | arr (elems : List Json) : Json

/-- Whether a JSON value is an array, i.e. deserializes to a list. -/
def Json.isArr : Json → Bool
  | .arr _ => true
  | _ => false

/-- JSON insignificant whitespace. -/
def isJsonWs (c : Char) : Bool :=
  c == ' ' || c == '\n' || c == '\t' || c == '\r'

/-- Drop leading JSON whitespace. -/
def skipWs : List Char → List Char
  | [] => []
  | c :: cs => if isJsonWs c then skipWs cs else c :: cs

/-- Split a leading run of decimal digits from the input. -/
def takeDigits : List Char → List Char × List Char
  | [] => ([], [])
  | c :: cs =>
    if c.isDigit then
      let p := takeDigits cs
      (c :: p.1, p.2)
    else ([], c :: cs)

/-- The number denoted by a run of decimal digits. -/
def digitsToNat (ds : List Char) : Nat :=
  ds.foldl (fun acc c => acc * 10 + (c.toNat - 48)) 0

/-- Consume the body of a double-quoted string up to the closing quote
(escape sequences are outside the modelled fragment). -/
def takeStringChars : List Char → Option (List Char × List Char)
  | [] => none
  | c :: cs =>
    if c == '\"' then some ([], cs)
    else
      match takeStringChars cs with
      | some p => some (c :: p.1, p.2)
      | none => none

mutual

/-- Modelled from the spec: the JS builtin `JSON.parse` on the fragment of
JSON described at `Json`; parse one value, returning it with the
unconsumed input, or `none` where `JSON.parse` would throw a
`SyntaxError`.  The fuel argument bounds nesting and always suffices when
it exceeds the input length. -/
def parseValue : Nat → List Char → Option (Json × List Char)
  | 0, _ => none
  | fuel + 1, input =>
    match skipWs input with
    | 'n' :: 'u' :: 'l' :: 'l' :: rest => some (.null, rest)
    | 't' :: 'r' :: 'u' :: 'e' :: rest => some (.bool true, rest)
    | 'f' :: 'a' :: 'l' :: 's' :: 'e' :: rest => some (.bool false, rest)
    | '\"' :: rest =>
      match takeStringChars rest with
      | some p => some (.str (String.mk p.1), p.2)
      | none => none
    | '[' :: rest =>
      match skipWs rest with
      | ']' :: rest2 => some (.arr [], rest2)
      | other => parseItems fuel other
    | '-' :: rest =>
      match takeDigits rest with
      | ([], _) => none
      | (ds, rest2) => some (.num (-(digitsToNat ds : Int)), rest2)
    | c :: cs =>
      if c.isDigit then
        let p := takeDigits (c :: cs)
        some (.num (digitsToNat p.1), p.2)
      else none
    | [] => none

/-- Parse one or more comma-separated array items followed by the closing
bracket, returning the array. -/
def parseItems : Nat → List Char → Option (Json × List Char)
  | 0, _ => none
  | fuel + 1, input =>
    match parseValue fuel input with
    | none => none
    | some (v, rest) =>
      match skipWs rest with
      | ',' :: rest2 =>
        match parseItems fuel rest2 with
        | some (Json.arr vs, rest3) => some (.arr (v :: vs), rest3)
        | _ => none
      | ']' :: rest2 => some (.arr [v], rest2)
      | _ => none

end

/-- Modelled from the spec: `JSON.parse` over a whole string — a value
followed only by whitespace; `none` models the thrown `SyntaxError`. -/
def jsonParse (s : String) : Option Json :=
  match parseValue (s.length + 1) s.data with
  | some (v, rest) => if skipWs rest == [] then some v else none
  | none => none

/-- The `savedMovies` initializer of `Home.jsx` lines 37-45: read the
`savedMovies` key (absent key modelled `none`), return
`saved ? JSON.parse(saved) : []` — the empty string is falsy — and return
`[]` from the catch block when `JSON.parse` throws.  The result is
whatever JSON was stored, not necessarily an array. -/
def homeLoadSavedMovies (stored : Option String) : Json :=
  match stored with
  | none => .arr []
  | some s => if s == "" then .arr [] else (jsonParse s).getD (.arr [])

/-- The load effect of `SavedMoviesProvider` (`SavedMoviesContext.jsx`
lines 12-15): `if (stored) setSavedMovies(JSON.parse(stored))` with no
try/catch, so the state keeps its initial `[]` when the key is falsy, is
replaced by the parsed value when parsing succeeds, and the effect throws
(modelled `Except.error`) when `JSON.parse` throws. -/
def savedMoviesProviderLoad (stored : Option String) : Except Unit Json :=
  match stored with
  | none => .ok (.arr [])
  | some s =>
    if s == "" then .ok (.arr [])
    else
      match jsonParse s with
      | some v => .ok v
      | none => .error ()

/-- C1.  `recordSearch` evaluated on a fresh query at the only kind of
movie the call sites supply (a catalog result, which has no `$id`
property): a row is created with `count = 1`, `movie_id = 155` and the
templated poster URL, but its document key is the absent `$id` value
(`none`), not the movie id `155` — the inline comment at line 80 of
`appwrite.js` (first variant) says the TMDB movie id was intended. -/
theorem c1_create_key_eval :
    updateSearchCount "batman"
        { id := 155, title := "Batman Begins", poster_path := some "/bat.jpg",
          vote_average := some 8, genre_ids := some [28], dollarId := none } []
      = [{ docId := none, query := "batman", count := 1, title := "Batman Begins",
           poster_url := "https://image.tmdb.org/t/p/w500/bat.jpg", movie_id := 155 }]
    ∧ (155 : Int) =
        ({ id := 155, title := "Batman Begins", poster_path := some "/bat.jpg",
           vote_average := some 8, genre_ids := some [28],
           dollarId := none } : Movie).id := by
  exact ⟨rfl, rfl⟩

/-- C2, counterexample.  A settle event whose text equals the current
settled text is not a dependency change, so the page-reset effect does not
run: from settled query `batman` at page 3, re-settling `batman` leaves
the whole state, in particular the page, unchanged — the claim requires
the page to reset to 1. -/
theorem c2_identical_settle_counterexample :
    settleSearchTerm
        { searchTerm := "batman", debouncedSearchTerm := "batman", errorMessage := "",
          movieList := [], currentPage := 3, totalPages := 5, isLoading := false }
      = { searchTerm := "batman", debouncedSearchTerm := "batman", errorMessage := "",
          movieList := [], currentPage := 3, totalPages := 5, isLoading := false }
    ∧ (settleSearchTerm
        { searchTerm := "batman", debouncedSearchTerm := "batman", errorMessage := "",
          movieList := [], currentPage := 3, totalPages := 5,
          isLoading := false }).currentPage ≠ 1 := by
  decide

/-- C2, amended.  When the settled query changes to text different from
the current settled value the page cursor resets to 1 unconditionally
(this includes re-entering text equal to some earlier settled query, as
long as it differs from the current one); a settle event carrying text
identical to the current settled value changes nothing. -/
theorem c2_settle_resets_page (s : HomeState)
    (h : ¬ s.searchTerm = s.debouncedSearchTerm) :
    (settleSearchTerm s).currentPage = 1
    ∧ (settleSearchTerm s).debouncedSearchTerm = s.searchTerm
    ∧ (∀ t : HomeState, t.searchTerm = t.debouncedSearchTerm → settleSearchTerm t = t) := by
  have hb : (s.searchTerm == s.debouncedSearchTerm) = false := by
    simpa [beq_iff_eq] using h
  refine ⟨?_, ?_, ?_⟩
  · unfold settleSearchTerm
    rw [hb]
    rfl
  · unfold settleSearchTerm
    rw [hb]
    rfl
  · intro t ht
    have hbt : (t.searchTerm == t.debouncedSearchTerm) = true := beq_iff_eq.mpr ht
    unfold settleSearchTerm
    rw [hbt]
    rfl

/-- C2, witness: settling `batman` over the settled empty query from page
3 resets the page to 1. -/
theorem c2_settle_resets_page_witness :
    (settleSearchTerm
        { searchTerm := "batman", debouncedSearchTerm := "", errorMessage := "",
          movieList := [], currentPage := 3, totalPages := 5,
          isLoading := false }).currentPage = 1 :=
  (c2_settle_resets_page
    { searchTerm := "batman", debouncedSearchTerm := "", errorMessage := "",
      movieList := [], currentPage := 3, totalPages := 5, isLoading := false }
    (by decide)).1

/-- C3, counterexample.  A movie whose `vote_average` is absent is
excluded by the code even at `minRating = 0` (the JS comparison
`undefined >= 0` is `false`), while the claim reading (absent rating
treated as 0) would let it pass: the displayed list drops the movie. -/
theorem c3_no_rating_counterexample :
    meetsRating
        { id := 7, title := "Unrated", poster_path := none, vote_average := none,
          genre_ids := some [], dollarId := none } 0 = false
    ∧ specMeetsRating
        { id := 7, title := "Unrated", poster_path := none, vote_average := none,
          genre_ids := some [], dollarId := none } 0 = true
    ∧ filteredMovies
        [{ id := 7, title := "Unrated", poster_path := none, vote_average := none,
           genre_ids := some [], dollarId := none }] none 0 = [] := by
  decide

/-- C3, amended.  A movie passes the rating filter iff it has a rating
value and that value is at least `minRating` (a movie with no rating
value never passes, even at `minRating = 0`); it passes the genre filter
iff no genre is selected or its genre-id list contains the selected id;
the displayed list is exactly the fetched movies passing both filters.
Concretely, a rating of 6 passes `minRating = 6` but not
`minRating = 6.1`. -/
theorem c3_filter_semantics (L : List Movie) (g : Option Int) (r : ℚ) (m : Movie) :
    (meetsRating m r = true ↔ ∃ v, m.vote_average = some v ∧ r ≤ v)
    ∧ (meetsGenre m g = true ↔
        (g = none ∨ ∃ gid ids, g = some gid ∧ m.genre_ids = some ids ∧ gid ∈ ids))
    ∧ (m ∈ filteredMovies L g r ↔
        m ∈ L ∧ meetsRating m r = true ∧ meetsGenre m g = true)
    ∧ filteredMovies L g r = L.filter (fun x => meetsRating x r && meetsGenre x g)
    ∧ meetsRating
        { id := 1, title := "X", poster_path := none, vote_average := some 6,
          genre_ids := none, dollarId := none } 6 = true
    ∧ meetsRating
        { id := 1, title := "X", poster_path := none, vote_average := some 6,
          genre_ids := none, dollarId := none } (61 / 10) = false := by
  refine ⟨?_, ?_, ?_, rfl, by decide, ?_⟩
  · cases h : m.vote_average with
    | none => simp [meetsRating, jsGE, h]
    | some v => simp [meetsRating, jsGE, h]
  · cases hg : g with
    | none => simp [meetsGenre]
    | some gid =>
      cases hm : m.genre_ids with
      | none => simp [meetsGenre, hm]
      | some ids => simp [meetsGenre, hm, List.elem_iff]
  · simp [filteredMovies, List.mem_filter, Bool.and_eq_true]
  · norm_num [meetsRating, jsGE]

/-- C4, counterexample.  Stored content `5` is well-formed JSON that the
Home initializer returns as-is, a number and not a list; stored content
`]oops` is malformed and makes the provider load effect throw, because
its `JSON.parse` call has no try/catch. -/
theorem c4_load_counterexample :
    homeLoadSavedMovies (some "5") = Json.num 5
    ∧ (Json.num 5).isArr = false
    ∧ savedMoviesProviderLoad (some "]oops") = Except.error () := by
  exact ⟨rfl, rfl, rfl⟩

/-- C4, amended.  The Home initializer never raises: it yields the empty
list when storage is missing, empty or unparseable, and otherwise yields
the parsed JSON value unchecked — not necessarily a list.  The provider
load effect keeps the empty list when storage is missing or empty,
replaces it with the parsed value (also unchecked) when parsing succeeds,
and raises when parsing fails. -/
theorem c4_load_behavior :
    homeLoadSavedMovies none = Json.arr []
    ∧ homeLoadSavedMovies (some "") = Json.arr []
    ∧ (∀ w : String, ¬ w = "" → jsonParse w = none →
        homeLoadSavedMovies (some w) = Json.arr [])
    ∧ (∀ (w : String) (v : Json), ¬ w = "" → jsonParse w = some v →
        homeLoadSavedMovies (some w) = v)
    ∧ savedMoviesProviderLoad none = Except.ok (Json.arr [])
    ∧ savedMoviesProviderLoad (some "") = Except.ok (Json.arr [])
    ∧ (∀ (w : String) (v : Json), ¬ w = "" → jsonParse w = some v →
        savedMoviesProviderLoad (some w) = Except.ok v)
    ∧ (∀ w : String, ¬ w = "" → jsonParse w = none →
        savedMoviesProviderLoad (some w) = Except.error ()) := by
  have hf : ∀ w : String, ¬ w = "" → (w == "") = false := by
    intro w hw
    simpa [beq_iff_eq] using hw
  refine ⟨rfl, rfl, ?_, ?_, rfl, rfl, ?_, ?_⟩
  · intro w hw hp
    simp [homeLoadSavedMovies, hf w hw, hp]
  · intro w v hw hp
    simp [homeLoadSavedMovies, hf w hw, hp]
  · intro w v hw hp
    simp [savedMoviesProviderLoad, hf w hw, hp]
  · intro w hw hp
    simp [savedMoviesProviderLoad, hf w hw, hp]

/-- C4, witness: loading the malformed content `]x` through the Home
initializer yields the empty list. -/
theorem c4_load_behavior_witness :
    homeLoadSavedMovies (some "]x") = Json.arr [] :=
  c4_load_behavior.2.2.1 "]x" (by decide) (by rfl)

/-- C7.  A successful fetch with zero results sets exactly the message
`No movies found.`, empties the movie list and clears the loading flag;
this is a different message from the transport-error path. -/
theorem c7_no_movies_found (s : HomeState) (tp : Int) :
    fetchMovies (.success [] tp) s
      = { s with errorMessage := "No movies found.", movieList := [],
                 isLoading := false }
    ∧ (fetchMovies (.success [] tp) s).errorMessage = "No movies found."
    ∧ (fetchMovies (.success [] tp) s).movieList = []
    ∧ (fetchMovies (.success [] tp) s).isLoading = false
    ∧ (fetchMovies .transportError s).errorMessage
        = "Error Fetching Movies. Please Try Again Later."
    ∧ "No movies found." ≠ "Error Fetching Movies. Please Try Again Later." := by
  refine ⟨rfl, rfl, rfl, rfl, rfl, by decide⟩

/-- C8.  With a backend error, `updateSearchCount` (under its try/catch)
leaves the ledger untouched and returns normally, and the first variant
of `getTrendingMovies` returns the empty list; but the second variant of
`getTrendingMovies` returns `undefined` (`none`) — not an empty result
list, contradicting its own JSDoc `@returns \x7bArray\x7d`. -/
theorem c8_trending_catch_eval :
    (∀ ledger : List SearchDoc, getTrendingMoviesV2 true ledger = none)
    ∧ (∀ ledger : List SearchDoc, getTrendingMoviesSafe true ledger = [])
    ∧ (∀ (q : String) (mv : Movie) (ledger : List SearchDoc),
        updateSearchCountSafe true q mv ledger = ledger)
    ∧ getTrendingMoviesV2 true
        [{ docId := some "a", query := "batman", count := 3, title := "Batman",
           poster_url := "", movie_id := 155 }]
      ≠ some [] := by
  refine ⟨fun _ => rfl, fun _ => rfl, fun _ _ _ => rfl, by decide⟩

/-- C10.  A transport or parse failure leaves the fetched movie list and
`totalPages` unchanged, setting only the error message and clearing the
loading flag; the zero-results branch also leaves `totalPages` unchanged;
a successful non-empty response updates the movie list and `totalPages`
together. -/
theorem c10_fetch_preserves_state (s : HomeState) (tp : Int) (m : Movie)
    (rest : List Movie) :
    (fetchMovies .transportError s).movieList = s.movieList
    ∧ (fetchMovies .transportError s).totalPages = s.totalPages
    ∧ fetchMovies .transportError s
        = { s with errorMessage := "Error Fetching Movies. Please Try Again Later.",
                   isLoading := false }
    ∧ (fetchMovies (.success [] tp) s).totalPages = s.totalPages
    ∧ fetchMovies (.success (m :: rest) tp) s
        = { s with errorMessage := "", movieList := m :: rest, totalPages := tp,
                   isLoading := false } := by
  exact ⟨rfl, rfl, rfl, rfl, rfl⟩

/-- C5.  For every browse state with `currentPage` in `[1, totalPages]`:
First and Previous are disabled exactly when the page is 1 or a fetch is
in flight, Next exactly when the page is `totalPages` or a fetch is in
flight; every click is a no-op or a single page move; Previous and Next
keep the page inside `[1, totalPages]`; a disabled button's click is a
no-op.  Concretely, from page 1 of 5 Previous is a no-op, three Next
clicks reach page 4, and Next at page 5 of 5 is a no-op. -/
theorem c5_pagination (s : HomeState)
    (h1 : 1 ≤ s.currentPage) (h2 : s.currentPage ≤ s.totalPages) :
    (firstDisabled s = true ↔ (s.currentPage = 1 ∨ s.isLoading = true))
    ∧ (prevDisabled s = true ↔ (s.currentPage = 1 ∨ s.isLoading = true))
    ∧ (nextDisabled s = true ↔ (s.currentPage = s.totalPages ∨ s.isLoading = true))
    ∧ ((clickFirst s).currentPage = 1 ∨ clickFirst s = s)
    ∧ ((clickPrev s).currentPage = s.currentPage - 1 ∨ clickPrev s = s)
    ∧ ((clickNext s).currentPage = s.currentPage + 1 ∨ clickNext s = s)
    ∧ 1 ≤ (clickPrev s).currentPage ∧ (clickPrev s).currentPage ≤ s.totalPages
    ∧ 1 ≤ (clickNext s).currentPage ∧ (clickNext s).currentPage ≤ s.totalPages
    ∧ (prevDisabled s = true → clickPrev s = s)
    ∧ (nextDisabled s = true → clickNext s = s)
    ∧ clickPrev
        { searchTerm := "", debouncedSearchTerm := "", errorMessage := "",
          movieList := [], currentPage := 1, totalPages := 5, isLoading := false }
      = { searchTerm := "", debouncedSearchTerm := "", errorMessage := "",
          movieList := [], currentPage := 1, totalPages := 5, isLoading := false }
    ∧ (clickNext (clickNext (clickNext
        { searchTerm := "", debouncedSearchTerm := "", errorMessage := "",
          movieList := [], currentPage := 1, totalPages := 5,
          isLoading := false }))).currentPage = 4
    ∧ clickNext
        { searchTerm := "", debouncedSearchTerm := "", errorMessage := "",
          movieList := [], currentPage := 5, totalPages := 5, isLoading := false }
      = { searchTerm := "", debouncedSearchTerm := "", errorMessage := "",
          movieList := [], currentPage := 5, totalPages := 5, isLoading := false } := by
  refine ⟨?_, ?_, ?_, ?_, ?_, ?_, ?_, ?_, ?_, ?_, ?_, ?_, by decide, by decide, by decide⟩
  · simp [firstDisabled]
  · simp [prevDisabled]
  · simp [nextDisabled]
  · unfold clickFirst
    split
    · exact Or.inl rfl
    · exact Or.inr rfl
  · unfold clickPrev
    split
    next h =>
      left
      show max (s.currentPage - 1) 1 = s.currentPage - 1
      have : (1:ℤ) ≤ s.currentPage - 1 := by omega
      exact max_eq_left this
    next h => exact Or.inr rfl
  · unfold clickNext
    split
    · exact Or.inl rfl
    · exact Or.inr rfl
  · unfold clickPrev
    split
    next h =>
      show 1 ≤ max (s.currentPage - 1) 1
      exact le_max_right _ _
    next h => exact h1
  · unfold clickPrev
    split
    next h =>
      show max (s.currentPage - 1) 1 ≤ s.totalPages
      exact max_le (by omega) (by omega)
    next h => exact h2
  · unfold clickNext
    split
    next h =>
      show 1 ≤ s.currentPage + 1
      omega
    next h => exact h1
  · unfold clickNext
    split
    next h =>
      show s.currentPage + 1 ≤ s.totalPages
      omega
    next h => exact h2
  · intro hd
    have hd' : s.currentPage = 1 ∨ s.isLoading = true := by
      simpa [prevDisabled] using hd
    unfold clickPrev
    rw [if_neg]
    rintro ⟨hlt, hload⟩
    rcases hd' with h | h
    · omega
    · rw [h] at hload
      exact absurd hload (by decide)
  · intro hd
    have hd' : s.currentPage = s.totalPages ∨ s.isLoading = true := by
      simpa [nextDisabled] using hd
    unfold clickNext
    rw [if_neg]
    rintro ⟨hlt, hload⟩
    rcases hd' with h | h
    · omega
    · rw [h] at hload
      exact absurd hload (by decide)

/-- C5, witness: at page 3 of 5 with no fetch in flight, Next is enabled
and a Next click lands on page 4. -/
theorem c5_pagination_witness :
    nextDisabled
        { searchTerm := "", debouncedSearchTerm := "", errorMessage := "",
          movieList := [], currentPage := 3, totalPages := 5,
          isLoading := false } = true
      ↔ ((3:ℤ) = 5 ∨ false = true) :=
  (c5_pagination
    { searchTerm := "", debouncedSearchTerm := "", errorMessage := "",
      movieList := [], currentPage := 3, totalPages := 5, isLoading := false }
    (by decide) (by decide)).2.2.1

/-- Helper: removing an id leaves no entry with that id. -/
theorem contains_removeMovie_self (M : List Movie) (j : Int) :
    containsMovie (removeMovie M j) j = false := by
  unfold containsMovie removeMovie
  rw [Bool.eq_false_iff]
  intro hc
  rcases List.any_eq_true.mp hc with ⟨x, hx, hbx⟩
  have hkeep : (x.id != j) = true := (List.mem_filter.mp hx).2
  have hxid : x.id = j := beq_iff_eq.mp hbx
  rw [hxid] at hkeep
  simp at hkeep

/-- Helper: saving a movie whose id is already present is a no-op. -/
theorem saveMovie_of_contains (M : List Movie) (m : Movie)
    (h : containsMovie M m.id = true) : saveMovie M m = M := by
  unfold containsMovie at h
  unfold saveMovie
  rw [if_pos h]

/-- C6.  On every favorites state in which at most one entry carries the
id of `m` (the invariant every state reachable from the empty list
satisfies): saving `m` makes membership of `m.id` true; saving twice in a
row is the same as saving once, and leaves exactly one entry with `m.id`;
removing `m.id` after saving makes membership false; removing an id that
is not present is a no-op. -/
theorem c6_favorites (L : List Movie) (m : Movie) (i : Int)
    (huniq : (L.filter (fun x => x.id == m.id)).length ≤ 1) :
    containsMovie (saveMovie L m) m.id = true
    ∧ saveMovie (saveMovie L m) m = saveMovie L m
    ∧ ((saveMovie L m).filter (fun x => x.id == m.id)).length = 1
    ∧ ((saveMovie (saveMovie L m) m).filter (fun x => x.id == m.id)).length = 1
    ∧ containsMovie (removeMovie (saveMovie L m) m.id) m.id = false
    ∧ (containsMovie L i = false → removeMovie L i = L) := by
  have hcontains : containsMovie (saveMovie L m) m.id = true := by
    unfold containsMovie saveMovie
    by_cases h : L.any (fun x => x.id == m.id) = true
    · rw [if_pos h]
      exact h
    · rw [if_neg h]
      simp [List.any_append]
  have hidem : saveMovie (saveMovie L m) m = saveMovie L m :=
    saveMovie_of_contains _ m hcontains
  have hone : ((saveMovie L m).filter (fun x => x.id == m.id)).length = 1 := by
    unfold saveMovie
    by_cases h : L.any (fun x => x.id == m.id) = true
    · rw [if_pos h]
      have h1 : 0 < (L.filter (fun x => x.id == m.id)).length := by
        rcases List.any_eq_true.mp h with ⟨x, hx, hbx⟩
        exact List.length_pos.mpr
          (List.ne_nil_of_mem (List.mem_filter.mpr ⟨hx, hbx⟩))
      omega
    · rw [if_neg h]
      have h0 : L.filter (fun x => x.id == m.id) = [] := by
        rw [List.filter_eq_nil_iff]
        intro a ha hpa
        exact h (List.any_eq_true.mpr ⟨a, ha, hpa⟩)
      rw [List.filter_append, h0]
      simp
  refine ⟨hcontains, hidem, hone, by rw [hidem]; exact hone,
    contains_removeMovie_self _ _, ?_⟩
  · intro hL
    unfold removeMovie
    apply List.filter_eq_self.mpr
    intro a ha
    unfold containsMovie at hL
    have hfa : ∀ x ∈ L, ¬ (x.id == i) = true := by
      simpa using List.any_eq_false.mp hL
    have hne : ¬ a.id = i := by
      have := hfa a ha
      simpa [beq_iff_eq] using this
    exact bne_iff_ne.mpr hne

/-- C6, witness: saving the same movie twice into the empty favorites
leaves exactly one entry with its id, and removing it afterwards makes
membership false. -/
theorem c6_favorites_witness :
    ((saveMovie (saveMovie []
        { id := 155, title := "Batman Begins", poster_path := none,
          vote_average := none, genre_ids := none, dollarId := none })
        { id := 155, title := "Batman Begins", poster_path := none,
          vote_average := none, genre_ids := none, dollarId := none }).filter
      (fun x => x.id == (155:ℤ))).length = 1 :=
  (c6_favorites []
    { id := 155, title := "Batman Begins", poster_path := none,
      vote_average := none, genre_ids := none, dollarId := none }
    155 (by decide)).2.2.2.1

/-- Helper: after `updateSearchCount q movie`, some document of the
ledger carries `q` as its query text — the updated one when the query was
found, the created one otherwise. -/
theorem exists_query_row (q : String) (mv : Movie) (ledger : List SearchDoc) :
    ∃ d ∈ updateSearchCount q mv ledger, d.query = q := by
  unfold updateSearchCount
  cases hfind : listDocumentsByQuery ledger q with
  | nil =>
    exact ⟨{ docId := mv.dollarId, query := q, count := 1, title := mv.title,
             poster_url := posterUrlOf mv, movie_id := mv.id },
           List.mem_append_right _ (List.mem_singleton_self _), rfl⟩
  | cons d0 tl =>
    have hd0 : d0 ∈ List.filter (fun d => d.query == q) ledger := by
      have : d0 ∈ listDocumentsByQuery ledger q := by
        rw [hfind]
        exact List.mem_cons_self _ _
      exact this
    have hd0mem : d0 ∈ ledger := List.mem_of_mem_filter hd0
    have hd0q : d0.query = q := beq_iff_eq.mp (List.mem_filter.mp hd0).2
    unfold updateDocumentCount
    refine ⟨_, List.mem_map_of_mem
      (fun d => if d.docId == d0.docId then { d with count := d0.count + 1 } else d)
      hd0mem, ?_⟩
    by_cases h : (d0.docId == d0.docId) = true
    · rw [if_pos h]
      exact hd0q
    · rw [if_neg h]
      exact hd0q

/-- C9, counterexample.  In a ledger holding five counters of count 2,
recording a fresh query `f` creates its row with count 1, yet the top-5
read excludes it: `topSearches` does not include a row for every query
just recorded. -/
theorem c9_top5_exclusion_counterexample :
    (∃ d ∈ updateSearchCount "f"
        { id := 6, title := "F", poster_path := none, vote_average := none,
          genre_ids := none, dollarId := none }
        [{ docId := some "a", query := "a", count := 2, title := "A",
           poster_url := "", movie_id := 1 },
         { docId := some "b", query := "b", count := 2, title := "B",
           poster_url := "", movie_id := 2 },
         { docId := some "c", query := "c", count := 2, title := "C",
           poster_url := "", movie_id := 3 },
         { docId := some "d", query := "d", count := 2, title := "D",
           poster_url := "", movie_id := 4 },
         { docId := some "e", query := "e", count := 2, title := "E",
           poster_url := "", movie_id := 5 }], d.query = "f")
    ∧ (listTopDocs (updateSearchCount "f"
        { id := 6, title := "F", poster_path := none, vote_average := none,
          genre_ids := none, dollarId := none }
        [{ docId := some "a", query := "a", count := 2, title := "A",
           poster_url := "", movie_id := 1 },
         { docId := some "b", query := "b", count := 2, title := "B",
           poster_url := "", movie_id := 2 },
         { docId := some "c", query := "c", count := 2, title := "C",
           poster_url := "", movie_id := 3 },
         { docId := some "d", query := "d", count := 2, title := "D",
           poster_url := "", movie_id := 4 },
         { docId := some "e", query := "e", count := 2, title := "E",
           poster_url := "", movie_id := 5 }])).all
      (fun d => d.query != "f") = true := by
  constructor
  · decide
  · decide

/-- C9, amended.  For every ledger, the top-5 read returns at most five
documents sorted by descending count (a higher count never after a lower
one), and `getTrendingMovies` is their field-for-field image; after
`recordSearch(q, movie)`, whenever the resulting ledger holds at most
five rows, the top-5 read includes a row for `q` (in general, inclusion
requires the row to rank among the first five by descending count). -/
theorem c9_topSearches (ledger : List SearchDoc) (q : String) (mv : Movie)
    (h5 : (updateSearchCount q mv ledger).length ≤ 5) :
    (listTopDocs ledger).length ≤ 5
    ∧ List.Sorted countDescRel (listTopDocs ledger)
    ∧ getTrendingMovies ledger
        = (listTopDocs ledger).map
            (fun d => { docId := d.docId, movie_id := d.movie_id,
                        title := d.title, poster_url := d.poster_url })
    ∧ ∃ d ∈ listTopDocs (updateSearchCount q mv ledger), d.query = q := by
  refine ⟨List.length_take_le 5 _, ?_, rfl, ?_⟩
  · exact List.Pairwise.sublist (List.take_sublist 5 _)
      (List.sorted_insertionSort countDescRel ledger)
  · rcases exists_query_row q mv ledger with ⟨d, hd, hq⟩
    have hperm := List.perm_insertionSort countDescRel (updateSearchCount q mv ledger)
    have hlen : (List.insertionSort countDescRel
        (updateSearchCount q mv ledger)).length ≤ 5 := by
      rw [hperm.length_eq]
      exact h5
    have htake : listTopDocs (updateSearchCount q mv ledger)
        = List.insertionSort countDescRel (updateSearchCount q mv ledger) := by
      unfold listTopDocs
      exact List.take_of_length_le hlen
    rw [htake]
    exact ⟨d, hperm.mem_iff.mpr hd, hq⟩

/-- C9, witness: recording `batman` into an empty ledger and reading the
top five includes a row whose query is `batman`. -/
theorem c9_topSearches_witness :
    ∃ d ∈ listTopDocs (updateSearchCount "batman"
        { id := 155, title := "Batman Begins", poster_path := some "/bat.jpg",
          vote_average := some 8, genre_ids := some [28], dollarId := none } []),
      d.query = "batman" :=
  (c9_topSearches [] "batman"
    { id := 155, title := "Batman Begins", poster_path := some "/bat.jpg",
      vote_average := some 8, genre_ids := some [28], dollarId := none }
    (by decide)).2.2.2

end ReactMovies
